import Mathlib

/-!
Shallow embedding of LightGBM's `include/LightGBM/utils/openmp_wrapper.h`.

The header has two build branches:

* with `_OPENMP`: the thread-count resolver `OMP_SET_NUM_THREADS`, backed by
  two function-local statics (`default_omp_num_threads`, initialised from the
  probe `OMP_NUM_THREADS()`, and `lgbm_default_num_threads`, initialised from
  `LGBM_DEFAULT_NUM_THREADS()`, which reads the environment variable), and
  the class `ThreadExceptionHelper`, whose single `std::exception_ptr` slot
  captures the first exception raised inside a parallel loop;
* without `_OPENMP`: stub functions returning single-thread constants and
  empty capture/drain macros (namespace `NoOmp` below).

Modelling conventions: machine integers are `Int`; the `int32_t` narrowing in
`LGBM_DEFAULT_NUM_THREADS` is modelled by `toInt32`, with C `long` modelled
as 64 bits (LP64, as on Linux and macOS); `std::exception_ptr` is `Option α`
(`none` is the null pointer); the two function-local statics and the active
OpenMP thread count form the explicit process state `ProcState`; `getenv`
and the runtime's thread count for an unconfigured parallel region form the
fixed process environment `Env`.
-/

namespace OpenMPWrapper

/-- Characters the C locale's isspace accepts; strtol skips them first. -/
def isCSpace (c : Char) : Bool :=
  c = ' ' || c = '\t' || c = '\n' || c = '\x0b' || c = '\x0c' || c = '\r'

/-- Value of a decimal digit character. -/
def digitVal (c : Char) : Nat := c.toNat - '0'.toNat

/-- C `strtol(v, &end, 10)` with 64-bit `long`: skip leading whitespace, read
an optional sign and then the longest run of decimal digits; the result is 0
when no digit follows; the value saturates at `LONG_MAX` / `LONG_MIN` on
overflow. -/
def strtol (v : String) : Int :=
  let cs := v.data.dropWhile isCSpace
  let sr : Int × List Char :=
    match cs with
    | '-' :: rest => (-1, rest)
    | '+' :: rest => (1, rest)
    | _ => (1, cs)
  let mag : Nat := (sr.2.takeWhile Char.isDigit).foldl (fun a c => a * 10 + digitVal c) 0
  max (-(2 ^ 63)) (min (2 ^ 63 - 1) (sr.1 * (mag : Int)))

/-- Narrowing a 64-bit value to `int32_t` wraps two's complement. -/
def toInt32 (v : Int) : Int :=
  let m := v % 2 ^ 32
  if m < 2 ^ 31 then m else m - 2 ^ 32

/-- The fixed process environment: the value `getenv` reports for the
variable `LGBM_DEFAULT_NUM_THREADS`, and the number of threads the OpenMP
runtime gives an unconfigured parallel region. -/
structure Env where
  lgbmDefaultNumThreadsVar : Option String
  ompDefaultNumThreads : Int
  deriving DecidableEq

/-- Process state of the `_OPENMP` branch: the two function-local statics of
`OMP_SET_NUM_THREADS` (`none` until their initialisation on the first call)
and the thread count last applied through `omp_set_num_threads` (`none`
while the runtime is still unconfigured). -/
structure ProcState where
  default_omp_num_threads : Option Int
  lgbm_default_num_threads : Option Int
  activeNumThreads : Option Int
  deriving DecidableEq

/-- The process state at startup: statics uninitialised, runtime
unconfigured. -/
def initState : ProcState := ⟨none, none, none⟩

/-- `omp_set_num_threads(n)`: applies `n` as the active thread count for
subsequent parallel regions. -/
def omp_set_num_threads (s : ProcState) (n : Int) : ProcState :=
  { s with activeNumThreads := some n }

/-- `OMP_NUM_THREADS()`: runs `omp_get_num_threads()` on the master thread of
a probe parallel region, observing the active count when one has been
applied and the runtime's default otherwise. -/
def OMP_NUM_THREADS (env : Env) (s : ProcState) : Int :=
  s.activeNumThreads.getD env.ompDefaultNumThreads

/-- `LGBM_DEFAULT_NUM_THREADS()`: reads the environment variable, parses it
with `strtol` into an `int32_t`, and returns that value when it is positive,
and the sentinel `-1` otherwise (also when the variable is unset). -/
def LGBM_DEFAULT_NUM_THREADS (env : Env) : Int :=
  match env.lgbmDefaultNumThreadsVar with
  | some val =>
    let ans : Int := toInt32 (strtol val)
    if ans > 0 then ans else -1
  | none => -1

/-- `OMP_SET_NUM_THREADS(num_threads)`: on the first call the two statics are
initialised from `OMP_NUM_THREADS()` and `LGBM_DEFAULT_NUM_THREADS()` and
kept for the rest of the process; then the first positive value among the
cached environment override, `num_threads` and the cached runtime default is
applied through `omp_set_num_threads`. -/
def OMP_SET_NUM_THREADS (env : Env) (s : ProcState) (num_threads : Int) : ProcState :=
  let d := s.default_omp_num_threads.getD (OMP_NUM_THREADS env s)
  let l := s.lgbm_default_num_threads.getD (LGBM_DEFAULT_NUM_THREADS env)
  let s' : ProcState :=
    { s with default_omp_num_threads := some d, lgbm_default_num_threads := some l }
  if l > 0 then omp_set_num_threads s' l
  else if num_threads > 0 then omp_set_num_threads s' num_threads
  else omp_set_num_threads s' d

/-- A sequence of `OMP_SET_NUM_THREADS` calls, applied in order. -/
def runSets (env : Env) : ProcState → List Int → ProcState
  | s, [] => s
  | s, n :: rest => runSets env (OMP_SET_NUM_THREADS env s n) rest

/-- The `std::exception_ptr` slot of `ThreadExceptionHelper`, with the
exceptions themselves abstracted to a type `α`; `none` is the null pointer
stored by the constructor. The mutex member has no observable state of its
own and is not modelled; the double check in `CaptureException` is kept. -/
structure ThreadExceptionHelper (α : Type) where
  ex_ptr_ : Option α
  deriving DecidableEq

/-- The constructor: `ex_ptr_ = nullptr`. -/
def ThreadExceptionHelper.init {α : Type} : ThreadExceptionHelper α := ⟨none⟩

/-- `CaptureException()`: return early when a signal is already held (checked
once before and once again after taking the lock), otherwise store
`std::current_exception()` — the argument `current`, which is `none` when no
exception is in flight at the call site. -/
def CaptureException {α : Type} (b : ThreadExceptionHelper α) (current : Option α) :
    ThreadExceptionHelper α :=
  match b.ex_ptr_ with
  | some _ => b
  | none =>
    match b.ex_ptr_ with
    | some _ => b
    | none => { ex_ptr_ := current }

/-- `ReThrow()`: when the slot is non-null, rethrow the held exception; the
second component is the signal re-raised on the caller. The slot itself is
left untouched by the source. -/
def ReThrow {α : Type} (b : ThreadExceptionHelper α) :
    ThreadExceptionHelper α × Option α :=
  match b.ex_ptr_ with
  | some e => (b, some e)
  | none => (b, none)

/-- The destructor body is a single `ReThrow()` call; this is the list of
signals that call re-raises, in order. -/
def destructorRaises {α : Type} (b : ThreadExceptionHelper α) : List α :=
  ((ReThrow b).2).toList

/-- A sequence of `CaptureException` calls, applied in order; element `i` of
the list is what `std::current_exception()` yields inside call `i`. -/
def captureAll {α : Type} : ThreadExceptionHelper α → List (Option α) → ThreadExceptionHelper α
  | b, [] => b
  | b, c :: rest => captureAll (CaptureException b c) rest

namespace NoOmp

/-- The no-`_OPENMP` stub of `omp_set_num_threads`: an empty body. -/
def omp_set_num_threads (_ : Int) : Unit := ()

/-- The no-`_OPENMP` stub of `OMP_SET_NUM_THREADS`: an empty body. -/
def OMP_SET_NUM_THREADS (_ : Int) : Unit := ()

/-- The no-`_OPENMP` stub of `omp_get_num_threads`: the constant 1. -/
def omp_get_num_threads : Int := 1

/-- The no-`_OPENMP` stub of `omp_get_max_threads`: the constant 1. -/
def omp_get_max_threads : Int := 1

/-- The no-`_OPENMP` stub of `omp_get_thread_num`: the constant 0. -/
def omp_get_thread_num : Int := 0

/-- The no-`_OPENMP` stub of `OMP_NUM_THREADS`: the constant 1. -/
def OMP_NUM_THREADS : Int := 1

/-- `OMP_INIT_EX()` expands to nothing in this branch: a wrapped computation
is returned unchanged. -/
def OMP_INIT_EX {α : Type} (k : α) : α := k

/-- `OMP_LOOP_EX_BEGIN()` expands to nothing in this branch. -/
def OMP_LOOP_EX_BEGIN {α : Type} (k : α) : α := k

/-- `OMP_LOOP_EX_END()` expands to nothing in this branch. -/
def OMP_LOOP_EX_END {α : Type} (k : α) : α := k

/-- `OMP_THROW_EX()` expands to nothing in this branch. -/
def OMP_THROW_EX {α : Type} (k : α) : α := k

/-- Signals re-raised by `OMP_THROW_EX()` in this branch: the macro is
empty, so there are none. -/
def OMP_THROW_EX_raises : Option Nat := none

end NoOmp

/-- Projection of an explicit `ProcState`. -/
@[simp] theorem mk_default (d l a : Option Int) :
    (ProcState.mk d l a).default_omp_num_threads = d := rfl

/-- Projection of an explicit `ProcState`. -/
@[simp] theorem mk_lgbm (d l a : Option Int) :
    (ProcState.mk d l a).lgbm_default_num_threads = l := rfl

/-- Projection of an explicit `ProcState`. -/
@[simp] theorem mk_active (d l a : Option Int) :
    (ProcState.mk d l a).activeNumThreads = a := rfl

/-- Normal form of one `OMP_SET_NUM_THREADS` call. -/
theorem OMP_SET_NUM_THREADS_eq (env : Env) (s : ProcState) (n : Int) :
    OMP_SET_NUM_THREADS env s n =
      ⟨some (s.default_omp_num_threads.getD (OMP_NUM_THREADS env s)),
       some (s.lgbm_default_num_threads.getD (LGBM_DEFAULT_NUM_THREADS env)),
       some (if s.lgbm_default_num_threads.getD (LGBM_DEFAULT_NUM_THREADS env) > 0
             then s.lgbm_default_num_threads.getD (LGBM_DEFAULT_NUM_THREADS env)
             else if n > 0 then n
             else s.default_omp_num_threads.getD (OMP_NUM_THREADS env s))⟩ := by
  simp only [OMP_SET_NUM_THREADS, omp_set_num_threads]
  split_ifs <;> rfl

/-- A capture on a barrier already holding a signal changes nothing. -/
theorem CaptureException_some {α : Type} (s : α) (c : Option α) :
    CaptureException (⟨some s⟩ : ThreadExceptionHelper α) c = ⟨some s⟩ := rfl

/-- Any capture sequence on a barrier already holding a signal changes
nothing. -/
theorem captureAll_some {α : Type} (s : α) :
    ∀ l : List (Option α), captureAll (⟨some s⟩ : ThreadExceptionHelper α) l = ⟨some s⟩
  | [] => rfl
  | c :: rest => by
    rw [captureAll, CaptureException_some]
    exact captureAll_some s rest

/-- Starting from an empty barrier, a capture sequence leaves the slot
holding exactly the first non-null signal offered, when there is one. -/
theorem captureAll_first {α : Type} :
    ∀ l : List (Option α),
      (captureAll (⟨none⟩ : ThreadExceptionHelper α) l).ex_ptr_ = (l.filterMap id).head?
  | [] => rfl
  | none :: rest => by
    rw [captureAll]
    show (captureAll (⟨none⟩ : ThreadExceptionHelper α) rest).ex_ptr_ = _
    rw [captureAll_first rest]
    simp
  | some x :: rest => by
    rw [captureAll]
    show (captureAll (⟨some x⟩ : ThreadExceptionHelper α) rest).ex_ptr_ = _
    rw [captureAll_some]
    simp

/-- `ReThrow` re-raises exactly the slot's content. -/
theorem ReThrow_snd {α : Type} (b : ThreadExceptionHelper α) : (ReThrow b).2 = b.ex_ptr_ := by
  obtain ⟨ex⟩ := b
  cases ex <;> rfl

/-- C2: once a signal has been captured, the slot is never overwritten: every
further `CaptureException` call is a no-op, any sequence of further calls
leaves the held signal unchanged, and over any capture sequence from a fresh
barrier the slot ends holding exactly the first non-null signal captured
(first-wins), hence at most one signal. -/
theorem capture_first_wins {α : Type} (b : ThreadExceptionHelper α) (s : α)
    (c : Option α) (h : b.ex_ptr_ = some s) :
    CaptureException b c = b ∧
    (∀ l : List (Option α), (captureAll b l).ex_ptr_ = some s) ∧
    (∀ l : List (Option α),
      (captureAll (ThreadExceptionHelper.init : ThreadExceptionHelper α) l).ex_ptr_ =
        (l.filterMap id).head?) := by
  obtain ⟨ex⟩ := b
  cases h
  refine ⟨rfl, ?_, captureAll_first⟩
  intro l
  rw [captureAll_some]

/-- C2 witness: on a barrier holding 1, capturing 2 changes nothing, and a
further capture sequence still leaves 1 held. -/
theorem capture_first_wins_witness :
    (⟨some 1⟩ : ThreadExceptionHelper Nat).ex_ptr_ = some 1 ∧
    CaptureException (⟨some 1⟩ : ThreadExceptionHelper Nat) (some 2) = ⟨some 1⟩ ∧
    (captureAll (⟨some 1⟩ : ThreadExceptionHelper Nat) [some 2, some 3]).ex_ptr_ = some 1 :=
  ⟨rfl, (capture_first_wins ⟨some 1⟩ 1 (some 2) rfl).1,
    (capture_first_wins ⟨some 1⟩ 1 (some 2) rfl).2.1 [some 2, some 3]⟩

/-- C3: `ReThrow` on a barrier that never captured a signal is a no-op that
re-raises nothing, and after any capture sequence whose first non-null
signal is `s`, `ReThrow` re-raises exactly `s`, the first captured worker
signal. -/
theorem rethrow_empty_noop_captured_first {α : Type} (b : ThreadExceptionHelper α)
    (h : b.ex_ptr_ = none) :
    ReThrow b = (b, none) ∧
    ∀ (l : List (Option α)) (s : α), (l.filterMap id).head? = some s →
      (ReThrow (captureAll b l)).2 = some s := by
  obtain ⟨ex⟩ := b
  cases h
  constructor
  · rfl
  · intro l s hl
    rw [ReThrow_snd, captureAll_first, hl]

/-- C3 witness: on a fresh barrier, draining re-raises nothing; after one
worker captured 5, draining re-raises 5. -/
theorem rethrow_empty_noop_captured_first_witness :
    (⟨none⟩ : ThreadExceptionHelper Nat).ex_ptr_ = none ∧
    ReThrow (⟨none⟩ : ThreadExceptionHelper Nat) = (⟨none⟩, none) ∧
    ((([some 5] : List (Option Nat)).filterMap id).head? = some 5 ∧
      (ReThrow (captureAll (⟨none⟩ : ThreadExceptionHelper Nat) [some 5])).2 = some 5) :=
  ⟨rfl, (rethrow_empty_noop_captured_first ⟨none⟩ rfl).1,
    ⟨rfl, (rethrow_empty_noop_captured_first ⟨none⟩ rfl).2 [some 5] 5 rfl⟩⟩

/-- C4: evaluation at the failing input: `ReThrow` on a barrier holding the
signal 0 re-raises 0 but leaves the slot set (the source never clears
`ex_ptr_`), so destroying the barrier after that drain re-raises 0 a second
time instead of nothing. -/
theorem rethrow_leaves_slot_set :
    (ReThrow (⟨some 0⟩ : ThreadExceptionHelper Nat)).2 = some 0 ∧
    (ReThrow (⟨some 0⟩ : ThreadExceptionHelper Nat)).1.ex_ptr_ = some 0 ∧
    destructorRaises (ReThrow (⟨some 0⟩ : ThreadExceptionHelper Nat)).1 = [0] :=
  ⟨rfl, rfl, rfl⟩

/-- C5: a barrier destroyed while holding a captured, never-drained signal
re-raises exactly that one signal at destruction. -/
theorem destructor_reraises_once {α : Type} (b : ThreadExceptionHelper α) (s : α)
    (h : b.ex_ptr_ = some s) : destructorRaises b = [s] := by
  obtain ⟨ex⟩ := b
  cases h
  rfl

/-- C5 witness: destroying a barrier holding 7 re-raises exactly 7 once. -/
theorem destructor_reraises_once_witness :
    (⟨some 7⟩ : ThreadExceptionHelper Nat).ex_ptr_ = some 7 ∧
    destructorRaises (⟨some 7⟩ : ThreadExceptionHelper Nat) = [7] :=
  ⟨rfl, destructor_reraises_once ⟨some 7⟩ 7 rfl⟩

/-- C10: capturing while no exception is in flight stores the null pointer,
so the barrier stays observably empty — `ReThrow` and the destructor
re-raise nothing — and a later capture made while a real signal `x` is in
flight still captures `x`. -/
theorem capture_null_keeps_empty (x : Nat) :
    (CaptureException (ThreadExceptionHelper.init : ThreadExceptionHelper Nat) none).ex_ptr_ =
      none ∧
    (ReThrow (CaptureException (ThreadExceptionHelper.init : ThreadExceptionHelper Nat)
      none)).2 = none ∧
    destructorRaises (CaptureException (ThreadExceptionHelper.init : ThreadExceptionHelper Nat)
      none) = [] ∧
    (CaptureException (CaptureException (ThreadExceptionHelper.init : ThreadExceptionHelper Nat)
      none) (some x)).ex_ptr_ = some x :=
  ⟨rfl, rfl, rfl, rfl⟩

/-- C1: `OMP_SET_NUM_THREADS` applies the cached environment override when it
is positive, ignoring the request entirely; otherwise it applies a positive
request; otherwise it applies the cached system default count. -/
theorem set_num_threads_priority (env : Env) (s : ProcState) (n : Int) :
    (0 < s.lgbm_default_num_threads.getD (LGBM_DEFAULT_NUM_THREADS env) →
      (OMP_SET_NUM_THREADS env s n).activeNumThreads =
        some (s.lgbm_default_num_threads.getD (LGBM_DEFAULT_NUM_THREADS env))) ∧
    (s.lgbm_default_num_threads.getD (LGBM_DEFAULT_NUM_THREADS env) ≤ 0 → 0 < n →
      (OMP_SET_NUM_THREADS env s n).activeNumThreads = some n) ∧
    (s.lgbm_default_num_threads.getD (LGBM_DEFAULT_NUM_THREADS env) ≤ 0 → n ≤ 0 →
      (OMP_SET_NUM_THREADS env s n).activeNumThreads =
        some (s.default_omp_num_threads.getD (OMP_NUM_THREADS env s))) := by
  rw [OMP_SET_NUM_THREADS_eq]
  refine ⟨?_, ?_, ?_⟩
  · intro h
    rw [mk_active, if_pos h]
  · intro h hn
    rw [mk_active, if_neg (not_lt.mpr h), if_pos hn]
  · intro h hn
    rw [mk_active, if_neg (not_lt.mpr h), if_neg (not_lt.mpr hn)]

/-- C1 witness: with the override cached as 4, a request of 3 is ignored and
4 is applied; on a fresh process without the variable, a request of 3 is
applied; with a request of 0 the cached default 8 is applied. -/
theorem set_num_threads_priority_witness :
    (0 < (initState.lgbm_default_num_threads.getD
        (LGBM_DEFAULT_NUM_THREADS ⟨some "4", 8⟩)) ∧
      (OMP_SET_NUM_THREADS ⟨some "4", 8⟩ initState 3).activeNumThreads =
        some (initState.lgbm_default_num_threads.getD
          (LGBM_DEFAULT_NUM_THREADS ⟨some "4", 8⟩))) ∧
    ((initState.lgbm_default_num_threads.getD (LGBM_DEFAULT_NUM_THREADS ⟨none, 8⟩) ≤ 0 ∧
        (0 : Int) < 3) ∧
      (OMP_SET_NUM_THREADS ⟨none, 8⟩ initState 3).activeNumThreads = some 3) ∧
    (OMP_SET_NUM_THREADS ⟨none, 8⟩ initState 0).activeNumThreads =
      some (initState.default_omp_num_threads.getD (OMP_NUM_THREADS ⟨none, 8⟩ initState)) :=
  ⟨⟨by decide, (set_num_threads_priority ⟨some "4", 8⟩ initState 3).1 (by decide)⟩,
   ⟨⟨by decide, by decide⟩,
    (set_num_threads_priority ⟨none, 8⟩ initState 3).2.1 (by decide) (by decide)⟩,
   (set_num_threads_priority ⟨none, 8⟩ initState 0).2.2 (by decide) (by decide)⟩

/-- C6 counterexample: the negative override string "-4294967295" is not
treated as absent: its 64-bit parse wraps to the positive `int32_t` value 1,
which is returned and applied, so resolution does not fall through to the
positive request 3. -/
theorem negative_override_accepted :
    LGBM_DEFAULT_NUM_THREADS ⟨some "-4294967295", 8⟩ = 1 ∧
    (OMP_SET_NUM_THREADS ⟨some "-4294967295", 8⟩ initState 3).activeNumThreads = some 1 ∧
    ¬ (OMP_SET_NUM_THREADS ⟨some "-4294967295", 8⟩ initState 3).activeNumThreads = some 3 :=
  ⟨by decide, by decide, by decide⟩

/-- C6 (amended): whenever the override variable is absent, or its parsed
value narrowed to `int32_t` is not positive (empty, non-numeric and zero
strings parse to 0; negative values whose narrowing stays non-positive
remain so), `LGBM_DEFAULT_NUM_THREADS` returns the non-positive sentinel
`-1`, and a fresh-process resolution falls through to the request when that
is positive and to the runtime default otherwise; no error is surfaced
(every function involved is total). -/
theorem malformed_override_falls_through (env : Env) (n : Int)
    (h : env.lgbmDefaultNumThreadsVar = none ∨
      ∃ v, env.lgbmDefaultNumThreadsVar = some v ∧ toInt32 (strtol v) ≤ 0) :
    LGBM_DEFAULT_NUM_THREADS env = -1 ∧
    (0 < n → (OMP_SET_NUM_THREADS env initState n).activeNumThreads = some n) ∧
    (n ≤ 0 → (OMP_SET_NUM_THREADS env initState n).activeNumThreads =
      some env.ompDefaultNumThreads) := by
  have hlg : LGBM_DEFAULT_NUM_THREADS env = -1 := by
    rcases h with h | ⟨v, hv, hle⟩
    · simp [LGBM_DEFAULT_NUM_THREADS, h]
    · simp only [LGBM_DEFAULT_NUM_THREADS, hv]
      rw [if_neg (not_lt.mpr hle)]
  refine ⟨hlg, ?_, ?_⟩
  · intro hn
    rw [OMP_SET_NUM_THREADS_eq, mk_active]
    simp only [initState, mk_default, mk_lgbm, mk_active, OMP_NUM_THREADS,
      Option.getD_none, hlg]
    rw [if_neg (by decide), if_pos hn]
  · intro hn
    rw [OMP_SET_NUM_THREADS_eq, mk_active]
    simp only [initState, mk_default, mk_lgbm, mk_active, OMP_NUM_THREADS,
      Option.getD_none, hlg]
    rw [if_neg (by decide), if_neg (not_lt.mpr hn)]

/-- C6 witness: with the non-numeric value "abc" the sentinel is returned
and a request of 3 is applied; with the variable absent and a request of 0
the runtime default 8 is applied. -/
theorem malformed_override_falls_through_witness :
    ((⟨some "abc", 8⟩ : Env).lgbmDefaultNumThreadsVar = some "abc" ∧
      toInt32 (strtol "abc") ≤ 0) ∧
    LGBM_DEFAULT_NUM_THREADS ⟨some "abc", 8⟩ = -1 ∧
    (OMP_SET_NUM_THREADS ⟨some "abc", 8⟩ initState 3).activeNumThreads = some 3 ∧
    (OMP_SET_NUM_THREADS (⟨none, 8⟩ : Env) initState 0).activeNumThreads = some 8 :=
  ⟨⟨rfl, by decide⟩,
   (malformed_override_falls_through ⟨some "abc", 8⟩ 3
     (Or.inr ⟨"abc", rfl, by decide⟩)).1,
   (malformed_override_falls_through ⟨some "abc", 8⟩ 3
     (Or.inr ⟨"abc", rfl, by decide⟩)).2.1 (by decide),
   (malformed_override_falls_through (⟨none, 8⟩ : Env) 0 (Or.inl rfl)).2.2 (by decide)⟩

/-- One resolver call keeps the applied count and the cached runtime default
at least 1, provided the runtime's unconfigured-region count is. -/
theorem good_step (env : Env) (s : ProcState) (n : Int)
    (henv : 1 ≤ env.ompDefaultNumThreads)
    (ha : ∀ a, s.activeNumThreads = some a → 1 ≤ a)
    (hd : ∀ d, s.default_omp_num_threads = some d → 1 ≤ d) :
    (∀ a, (OMP_SET_NUM_THREADS env s n).activeNumThreads = some a → 1 ≤ a) ∧
    (∀ d, (OMP_SET_NUM_THREADS env s n).default_omp_num_threads = some d → 1 ≤ d) := by
  have hdle : 1 ≤ s.default_omp_num_threads.getD (OMP_NUM_THREADS env s) := by
    cases hh : s.default_omp_num_threads with
    | some d0 => simpa using hd d0 hh
    | none =>
      simp only [Option.getD_none, OMP_NUM_THREADS]
      cases hh2 : s.activeNumThreads with
      | some a0 => simpa using ha a0 hh2
      | none => simpa using henv
  constructor
  · intro a hx
    rw [OMP_SET_NUM_THREADS_eq, mk_active, Option.some.injEq] at hx
    split_ifs at hx with h1 h2 <;> omega
  · intro d hx
    rw [OMP_SET_NUM_THREADS_eq, mk_default, Option.some.injEq] at hx
    omega

/-- Over any call sequence the applied count stays at least 1, provided the
state already satisfies the two bounds of `good_step`. -/
theorem runSets_good (env : Env) (henv : 1 ≤ env.ompDefaultNumThreads) :
    ∀ (reqs : List Int) (s : ProcState),
      (∀ a, s.activeNumThreads = some a → 1 ≤ a) →
      (∀ d, s.default_omp_num_threads = some d → 1 ≤ d) →
      (∀ a, (runSets env s reqs).activeNumThreads = some a → 1 ≤ a)
  | [], _, ha, _ => ha
  | n :: rest, s, ha, hd =>
    runSets_good env henv rest (OMP_SET_NUM_THREADS env s n)
      (good_step env s n henv ha hd).1 (good_step env s n henv ha hd).2

/-- C8: the resolver is total — every call applies some thread count, for
every integer request including zero and negative values — and whenever the
runtime's unconfigured-region thread count is at least 1, every count
applied over any call sequence from process start is at least 1. -/
theorem resolver_total_ge_one (env : Env) (reqs : List Int) (a : Int)
    (h : 1 ≤ env.ompDefaultNumThreads)
    (ha : (runSets env initState reqs).activeNumThreads = some a) :
    1 ≤ a ∧
    ∀ (s : ProcState) (n : Int), ((OMP_SET_NUM_THREADS env s n).activeNumThreads).isSome := by
  constructor
  · refine runSets_good env h reqs initState ?_ ?_ a ha
    · intro x hx
      simp [initState] at hx
    · intro x hx
      simp [initState] at hx
  · intro s n
    rw [OMP_SET_NUM_THREADS_eq]
    rfl

/-- C8 witness: with runtime default 8 and requests 0 and -2, the applied
count is 8, which is at least 1. -/
theorem resolver_total_ge_one_witness :
    ((1 : Int) ≤ (⟨none, 8⟩ : Env).ompDefaultNumThreads ∧
      (runSets ⟨none, 8⟩ initState [0, -2]).activeNumThreads = some 8) ∧
    (1 : Int) ≤ 8 :=
  ⟨⟨by decide, by decide⟩,
   (resolver_total_ge_one ⟨none, 8⟩ [0, -2] 8 (by decide) (by decide)).1⟩

/-- When the cached override is the positive value of
`LGBM_DEFAULT_NUM_THREADS` and it was just applied, every further call keeps
both facts. -/
theorem runSets_override_keep (env : Env) (h : 0 < LGBM_DEFAULT_NUM_THREADS env) :
    ∀ (reqs : List Int) (s : ProcState),
      s.lgbm_default_num_threads = some (LGBM_DEFAULT_NUM_THREADS env) →
      s.activeNumThreads = some (LGBM_DEFAULT_NUM_THREADS env) →
      (runSets env s reqs).lgbm_default_num_threads = some (LGBM_DEFAULT_NUM_THREADS env) ∧
      (runSets env s reqs).activeNumThreads = some (LGBM_DEFAULT_NUM_THREADS env)
  | [], _, hl, ha => ⟨hl, ha⟩
  | n :: rest, s, hl, ha => by
    have hstep1 : (OMP_SET_NUM_THREADS env s n).lgbm_default_num_threads =
        some (LGBM_DEFAULT_NUM_THREADS env) := by
      rw [OMP_SET_NUM_THREADS_eq, mk_lgbm, hl, Option.getD_some]
    have hstep2 : (OMP_SET_NUM_THREADS env s n).activeNumThreads =
        some (LGBM_DEFAULT_NUM_THREADS env) := by
      rw [OMP_SET_NUM_THREADS_eq, mk_active, hl, Option.getD_some, if_pos h]
    exact runSets_override_keep env h rest (OMP_SET_NUM_THREADS env s n) hstep1 hstep2

/-- C9: with a fixed positive override, every call of any non-empty call
sequence from process start applies the override value, the cached override
never changes afterwards, and once both statics are cached a call reads
nothing from the environment: its result is the same under any environment. -/
theorem override_fixed (env : Env) (r : Int) (reqs : List Int)
    (h : 0 < LGBM_DEFAULT_NUM_THREADS env) :
    ((runSets env initState (r :: reqs)).activeNumThreads =
        some (LGBM_DEFAULT_NUM_THREADS env) ∧
      (runSets env initState (r :: reqs)).lgbm_default_num_threads =
        some (LGBM_DEFAULT_NUM_THREADS env)) ∧
    ∀ (env₂ : Env) (s : ProcState) (n : Int),
      s.lgbm_default_num_threads.isSome → s.default_omp_num_threads.isSome →
      OMP_SET_NUM_THREADS env s n = OMP_SET_NUM_THREADS env₂ s n := by
  constructor
  · have h1 : (OMP_SET_NUM_THREADS env initState r).lgbm_default_num_threads =
        some (LGBM_DEFAULT_NUM_THREADS env) := by
      rw [OMP_SET_NUM_THREADS_eq, mk_lgbm]
      simp [initState]
    have h2 : (OMP_SET_NUM_THREADS env initState r).activeNumThreads =
        some (LGBM_DEFAULT_NUM_THREADS env) := by
      rw [OMP_SET_NUM_THREADS_eq, mk_active]
      simp only [initState, mk_lgbm, Option.getD_none]
      rw [if_pos h]
    have hk := runSets_override_keep env h reqs (OMP_SET_NUM_THREADS env initState r) h1 h2
    exact ⟨hk.2, hk.1⟩
  · intro env₂ s n hsl hsd
    obtain ⟨l0, hl0⟩ := Option.isSome_iff_exists.mp hsl
    obtain ⟨d0, hd0⟩ := Option.isSome_iff_exists.mp hsd
    rw [OMP_SET_NUM_THREADS_eq, OMP_SET_NUM_THREADS_eq, hl0, hd0]
    simp only [Option.getD_some]

/-- C9 witness: with the override string "4", the calls requesting 3 and
then 0 each apply 4, and the cached override is 4. -/
theorem override_fixed_witness :
    0 < LGBM_DEFAULT_NUM_THREADS ⟨some "4", 8⟩ ∧
    (runSets ⟨some "4", 8⟩ initState [3, 0]).activeNumThreads =
      some (LGBM_DEFAULT_NUM_THREADS ⟨some "4", 8⟩) ∧
    (runSets ⟨some "4", 8⟩ initState [3, 0]).lgbm_default_num_threads =
      some (LGBM_DEFAULT_NUM_THREADS ⟨some "4", 8⟩) :=
  ⟨by decide, ((override_fixed ⟨some "4", 8⟩ 3 [0] (by decide)).1).1,
   ((override_fixed ⟨some "4", 8⟩ 3 [0] (by decide)).1).2⟩

/-- C7: in the no-`_OPENMP` build every query returns the single-thread
constants, the two setters have no effect, and the capture/drain macros
expand to nothing, so a capture followed by a drain re-raises no signal and
leaves any wrapped computation unchanged. -/
theorem noomp_single_thread :
    NoOmp.omp_get_num_threads = 1 ∧ NoOmp.omp_get_max_threads = 1 ∧
    NoOmp.OMP_NUM_THREADS = 1 ∧ NoOmp.omp_get_thread_num = 0 ∧
    (∀ n m : Int, NoOmp.omp_set_num_threads n = NoOmp.omp_set_num_threads m) ∧
    (∀ n m : Int, NoOmp.OMP_SET_NUM_THREADS n = NoOmp.OMP_SET_NUM_THREADS m) ∧
    (∀ k : Option Nat,
      NoOmp.OMP_THROW_EX (NoOmp.OMP_LOOP_EX_END (NoOmp.OMP_LOOP_EX_BEGIN
        (NoOmp.OMP_INIT_EX k))) = k) ∧
    NoOmp.OMP_THROW_EX_raises = none :=
  ⟨rfl, rfl, rfl, rfl, fun _ _ => rfl, fun _ _ => rfl, fun _ => rfl, rfl⟩

end OpenMPWrapper
